import Mathlib

/-!
Verification of the booking conflict detection and auto-approval decision
engine of the smart-facility-manager repository.

The embedding models the Express route handlers in
`server/src/routes/bookings.js` and `server/src/routes/qr-scanner.js`
together with the Mongoose data model (`Booking`, `Facility`,
`SystemSettings` schemas).  Instants are modelled as `Int` (epoch
milliseconds), MongoDB object ids as `Nat`, and JS strings appearing in
check-in codes as lists of UTF-16 code units (`List Nat`).  Presentation
fields the embedded logic never reads (facility name, location, pricing,
notification history, ...) are omitted from the structures.
-/

namespace FacilityManager

/-- Booking statuses, from the `status` enum of the Booking schema. -/
inductive BStatus where
  | PENDING
  | PENDING_ADMIN
  | APPROVED
  | REJECTED
  | CANCELLED
  | CHECKED_IN
  | CHECKED_OUT
  | EXPIRED
deriving DecidableEq, Repr

/-- Facility types, from the `type` enum of the Facility schema. -/
inductive FacilityType where
  | PROJECTOR
  | LAB
  | BUS
  | HOSTEL
  | HALL
  | CLASSROOM
  | CONFERENCE_ROOM
  | EQUIPMENT
  | VEHICLE
deriving DecidableEq, Repr

/-- Approval record type: `approval.type` enum `['AUTO','MANUAL']`. -/
inductive ApprovalType where
  | AUTO
  | MANUAL
deriving DecidableEq, Repr

/-- The `approval` sub-document of a booking.  The schema field `by` is a
Lean keyword and is rendered `approvedBy`; `at` is rendered `approvedAt`. -/
structure Approval where
  atype : ApprovalType
  approvedBy : Option Nat
  approvedAt : Option Int
  notes : Option String
deriving DecidableEq, Repr

/-- One entry of the append-only `audit` array (`{action, by, at}`);
`by`/`at` are rendered `doneBy`/`doneAt`. -/
structure AuditEntry where
  action : String
  doneBy : Nat
  doneAt : Int
deriving DecidableEq, Repr

/-- A facility document (decision-relevant fields of the Facility schema). -/
structure Facility where
  id : Nat
  type : FacilityType
  capacity : Nat
  isRestricted : Bool
  active : Bool
  maintenanceMode : Bool
deriving DecidableEq, Repr

/-- A booking document (decision-relevant fields of the Booking schema).
`checkInCode` is the sequence of UTF-16 code units of the stored string. -/
structure Booking where
  id : Nat
  userId : Nat
  facilities : List Nat
  startTime : Int
  endTime : Int
  status : BStatus
  approval : Option Approval
  isExternal : Bool
  externalOrg : Option String
  checkInCode : List Nat
  qrCodeUrl : Option String
  checkInAt : Option Int
  checkOutAt : Option Int
  audit : List AuditEntry
deriving DecidableEq, Repr

/-- The singleton SystemSettings document (fields of the schema that
parameterise booking policy). -/
structure SystemSettings where
  autoApprovalEnabled : Bool
  reminderBeforeStartMinutes : Int
  reminderBeforeEndMinutes : Int
  overdueGraceMinutes : Int
  externalBookingsEnabled : Bool
deriving DecidableEq, Repr

/-- Statuses excluded by the conflict query:
`status: { $nin: ['REJECTED', 'CANCELLED', 'EXPIRED'] }`. -/
def excludedStatuses : List BStatus :=
  [BStatus.REJECTED, BStatus.CANCELLED, BStatus.EXPIRED]

/-- Whether a stored booking matches the conflict query of
`POST /api/bookings` (bookings.js lines 89-95) for resource-id set `ids`
and half-open interval `[s, e)`:
`facilities: { $in: ids }`, `status: { $nin: [...] }`,
`startTime < e`, `endTime > s`. -/
def matchesConflictQuery (b : Booking) (ids : List Nat) (s e : Int) : Bool :=
  b.facilities.any (fun f => decide (f ∈ ids)) &&
  !(decide (b.status ∈ excludedStatuses)) &&
  decide (b.startTime < e) &&
  decide (b.endTime > s)

/-- `conflicts.length > 0`: some stored booking matches the conflict query. -/
def conflictExists (resvs : List Booking) (ids : List Nat) (s e : Int) : Bool :=
  resvs.any (fun b => matchesConflictQuery b ids s e)

/-- The facilities looked up by the route:
`Facility.find({ _id: { $in: facilityIds }, active: true })` (line 83). -/
def foundFacilities (catalog : List Facility) (ids : List Nat) : List Facility :=
  catalog.filter (fun f => decide (f.id ∈ ids) && f.active)

/-- The capacity pool for a type:
`Facility.find({ type, active: true, maintenanceMode: false })` (line 120),
projected to `_id` (line 123). -/
def typePool (catalog : List Facility) (t : FacilityType) : List Nat :=
  (catalog.filter (fun f => decide (f.type = t) && f.active && !f.maintenanceMode)).map
    (fun f => f.id)

/-- The `bookedSet` of lines 126-141: the pool members that occur in some
stored booking matching the conflict query over the whole pool.  Filtering
the pool yields each booked pool id exactly once, matching the JS `Set`
(the pool ids are `_id`s of distinct documents, hence pairwise distinct). -/
def bookedOfPool (resvs : List Booking) (pool : List Nat) (s e : Int) : List Nat :=
  pool.filter (fun fid =>
    resvs.any (fun b => matchesConflictQuery b pool s e && decide (fid ∈ b.facilities)))

/-- The capacity loop of lines 116-148 over the distinct types of the
selected facilities: a type trips the check when its pool is non-empty
(`if (!facilitiesOfType || facilitiesOfType.length === 0) continue`) and
`bookedSet.size >= facilityIdsOfType.length`. -/
def capacitySaturated (catalog : List Facility) (resvs : List Booking)
    (ftypes : List FacilityType) (s e : Int) : Bool :=
  ftypes.any (fun t =>
    let pool := typePool catalog t
    !pool.isEmpty && decide ((bookedOfPool resvs pool s e).length ≥ pool.length))

/-- The decisions of the admission engine (spec section 4.2). -/
inductive Decision where
  | REJECT_CONFLICT
  | REJECT_INACTIVE
  | AUTO_APPROVE
  | REQUIRES_ADMIN_APPROVAL
deriving DecidableEq, Repr

/-- The decision logic of `POST /api/bookings` (lines 82-151), with the
route's control flow factored into a `Decision` value: the 404 branch when
the active-facility lookup does not account for every requested id, the
409 branch on a conflict, then
`requiresAdminApproval = hasRestrictedFacility || isExternal`, extended by
the capacity check (only evaluated when the flag is still false, which the
short-circuiting `||` reproduces). -/
def bookingDecision (catalog : List Facility) (resvs : List Booking)
    (ids : List Nat) (s e : Int) (isExternal : Bool) : Decision :=
  let facilities := foundFacilities catalog ids
  if facilities.length ≠ ids.length then Decision.REJECT_INACTIVE
  else if conflictExists resvs ids s e then Decision.REJECT_CONFLICT
  else
    let hasRestrictedFacility := facilities.any (fun f => f.isRestricted)
    let requiresAdminApproval := hasRestrictedFacility || isExternal ||
      capacitySaturated catalog resvs ((facilities.map (fun f => f.type)).dedup) s e
    if requiresAdminApproval then Decision.REQUIRES_ADMIN_APPROVAL
    else Decision.AUTO_APPROVE

/-- The request body of `POST /api/bookings`.  Fields are `Option` because
the route checks presence (`!facilityIds || !startTime || !endTime`); note
an empty array is truthy in JS, so `some []` passes that check. -/
structure CreateRequest where
  facilityIds : Option (List Nat)
  startTime : Option Int
  endTime : Option Int
  isExternal : Bool
  externalOrg : Option String
deriving DecidableEq, Repr

/-- Outcome of `POST /api/bookings`: the 400 presence-check response, the
404 response, the 409 conflict response, or the created booking (201). -/
inductive CreateResult where
  | validationError (msg : String)
  | notFoundOrInactive
  | conflict
  | created (b : Booking)
deriving DecidableEq, Repr

/-- The body of `POST /api/bookings` (lines 70-200) up to persistence.
`userId` is the authenticated user, `newId`/`code` the fresh `_id` and
`nanoid(8)` check-in code minted by the schema, `qr` the generated QR data
URL, `now` the clock.  The handler has the SystemSettings model in scope
(bookings.js line 8) but its decision logic never reads it; the `settings`
argument records that access. -/
def createBooking (catalog : List Facility) (resvs : List Booking)
    (req : CreateRequest) (userId : Nat) (newId : Nat) (code : List Nat)
    (qr : String) (settings : SystemSettings) (now : Int) : CreateResult :=
  match req.facilityIds, req.startTime, req.endTime with
  | some ids, some s, some e =>
    match bookingDecision catalog resvs ids s e req.isExternal with
    | Decision.REJECT_INACTIVE => CreateResult.notFoundOrInactive
    | Decision.REJECT_CONFLICT => CreateResult.conflict
    | d =>
      let autoApprove := decide (d = Decision.AUTO_APPROVE)
      CreateResult.created
        { id := newId
          userId := userId
          facilities := ids
          startTime := s
          endTime := e
          status := if autoApprove then BStatus.APPROVED else BStatus.PENDING_ADMIN
          approval :=
            if autoApprove then
              some { atype := ApprovalType.AUTO, approvedBy := none,
                     approvedAt := some now, notes := none }
            else none
          isExternal := req.isExternal
          externalOrg := req.externalOrg
          checkInCode := code
          qrCodeUrl := some qr
          checkInAt := none
          checkOutAt := none
          audit := [{ action := "BOOKING_CREATED", doneBy := userId, doneAt := now }] }
  | _, _, _ =>
    CreateResult.validationError "Facility IDs, start time, and end time are required"

/-- The full route including persistence: only the `created` outcome saves
a new document into the booking store; every other outcome returns before
`booking.save()` and leaves the store unchanged. -/
def postBooking (catalog : List Facility) (store : List Booking)
    (req : CreateRequest) (userId : Nat) (newId : Nat) (code : List Nat)
    (qr : String) (settings : SystemSettings) (now : Int) :
    List Booking × CreateResult :=
  match createBooking catalog store req userId newId code qr settings now with
  | CreateResult.created b => (store ++ [b], CreateResult.created b)
  | r => (store, r)

/-- `PATCH /api/bookings/:id/approve` on a found booking (lines 216-256):
guarded on `PENDING_ADMIN`/`PENDING`, then sets `APPROVED`, a MANUAL
approval record, generates the QR data URL if absent, appends audit. -/
def approveBooking (b : Booking) (adminId : Nat) (now : Int)
    (notes : Option String) (qr : String) : Except String Booking :=
  if decide (b.status ≠ BStatus.PENDING_ADMIN) && decide (b.status ≠ BStatus.PENDING) then
    Except.error "Only pending bookings can be approved"
  else
    let b1 := { b with
      status := BStatus.APPROVED
      approval := some { atype := ApprovalType.MANUAL, approvedBy := some adminId,
                         approvedAt := some now, notes := notes } }
    let b2 := if b1.qrCodeUrl.isNone then { b1 with qrCodeUrl := some qr } else b1
    Except.ok { b2 with
      audit := b2.audit ++ [{ action := "BOOKING_APPROVED", doneBy := adminId, doneAt := now }] }

/-- `PATCH /api/bookings/:id/reject` on a found booking (lines 272-293):
the handler has no status guard; it unconditionally sets `REJECTED`,
overwrites the approval record, and appends audit. -/
def rejectBooking (b : Booking) (adminId : Nat) (now : Int)
    (notes : Option String) : Except String Booking :=
  Except.ok { b with
    status := BStatus.REJECTED
    approval := some { atype := ApprovalType.MANUAL, approvedBy := some adminId,
                       approvedAt := some now, notes := notes }
    audit := b.audit ++ [{ action := "BOOKING_REJECTED", doneBy := adminId, doneAt := now }] }

/-- `PATCH /api/bookings/:id/cancel` on a found booking (lines 309-342):
owner-or-admin permission check, refusal once `CHECKED_IN`/`CHECKED_OUT`,
then sets `CANCELLED`, appends audit, and folds optional notes into the
approval record (creating a bare MANUAL record when absent). -/
def cancelBooking (b : Booking) (actorId : Nat) (isAdmin : Bool) (now : Int)
    (notes : Option String) : Except String Booking :=
  if !isAdmin && decide (b.userId ≠ actorId) then
    Except.error "Access denied"
  else if decide (b.status = BStatus.CHECKED_IN) || decide (b.status = BStatus.CHECKED_OUT) then
    Except.error "Cannot cancel booking that is already checked in or out"
  else
    let b1 := { b with
      status := BStatus.CANCELLED
      audit := b.audit ++ [{ action := "BOOKING_CANCELLED", doneBy := actorId, doneAt := now }] }
    match notes with
    | none => Except.ok b1
    | some n =>
      match b1.approval with
      | none =>
        let ap : Approval :=
          { atype := ApprovalType.MANUAL, approvedBy := none, approvedAt := none,
            notes := some n }
        Except.ok { b1 with approval := some ap }
      | some ap => Except.ok { b1 with approval := some { ap with notes := some n } }

/-- `toUpperCase` on one UTF-16 code unit, as JS applies it to the ASCII
range check-in codes (nanoid alphabet `A-Za-z0-9_-`): a lowercase letter
maps 32 down, everything else is unchanged. -/
def upperUnit (n : Nat) : Nat := if 97 ≤ n ∧ n ≤ 122 then n - 32 else n

/-- `manualCode.toUpperCase()` (qr-scanner.js line 31). -/
def toUpperCase (s : List Nat) : List Nat := s.map upperUnit

/-- The two input shapes of `POST /api/qr-scanner/scan` after parsing: a
QR payload carrying `checkInCode` and `bookingId` verbatim, or a manual
code. -/
inductive ScanInput where
  | qr (checkInCode : List Nat) (bookingId : Nat)
  | manual (code : List Nat)
deriving DecidableEq, Repr

/-- The booking lookup of the scan route (lines 30-47): the QR path
queries `{ checkInCode, _id: bookingId }` with the code taken verbatim
from the payload; the manual path queries `{ checkInCode }` with the
submitted code uppercased first. -/
def scanFind (store : List Booking) (input : ScanInput) : Option Booking :=
  match input with
  | ScanInput.qr c bid =>
    store.find? (fun b => decide (b.checkInCode = c) && decide (b.id = bid))
  | ScanInput.manual c =>
    store.find? (fun b => decide (b.checkInCode = toUpperCase c))

/-- The status transition of the scan route on a found booking (lines
57-105): only `APPROVED`/`CHECKED_IN` may proceed, the clock must lie in
`[startTime - 30min, endTime + 30min]`, and the booking then moves
`APPROVED → CHECKED_IN` or `CHECKED_IN → CHECKED_OUT`. -/
def scanProcess (b : Booking) (actorId : Nat) (now : Int) : Except String Booking :=
  if !(decide (b.status = BStatus.APPROVED) || decide (b.status = BStatus.CHECKED_IN)) then
    Except.error "Booking is not approved for check-in"
  else
    let checkInStart := b.startTime - 30 * 60 * 1000
    let checkInEnd := b.endTime + 30 * 60 * 1000
    if decide (now < checkInStart) then
      Except.error "Check-in is only allowed 30 minutes before booking start time"
    else if decide (now > checkInEnd) then
      Except.error "Booking has expired. Check-in no longer allowed."
    else if decide (b.status = BStatus.APPROVED) then
      let entry : AuditEntry := { action := "QR_CHECKIN", doneBy := actorId, doneAt := now }
      Except.ok { b with
        status := BStatus.CHECKED_IN
        checkInAt := some now
        audit := b.audit ++ [entry] }
    else
      let entry : AuditEntry := { action := "QR_CHECKOUT", doneBy := actorId, doneAt := now }
      Except.ok { b with
        status := BStatus.CHECKED_OUT
        checkOutAt := some now
        audit := b.audit ++ [entry] }

/-- `Booking.findById` over the store. -/
def findBooking (store : List Booking) (bid : Nat) : Option Booking :=
  store.find? (fun b => decide (b.id = bid))

/-- `booking.save()` over the store: replace the document with the same id. -/
def saveBooking (store : List Booking) (b1 : Booking) : List Booking :=
  store.map (fun b => if b.id = b1.id then b1 else b)

/-- Outcome of a PATCH route: 404, 400 with message, or the saved booking. -/
inductive PatchResult where
  | notFound
  | badRequest (msg : String)
  | ok (b : Booking)
deriving DecidableEq, Repr

/-- The approve route over the store: find, guard, save. -/
def approveRoute (store : List Booking) (bid : Nat) (adminId : Nat) (now : Int)
    (notes : Option String) (qr : String) : List Booking × PatchResult :=
  match findBooking store bid with
  | none => (store, PatchResult.notFound)
  | some b =>
    match approveBooking b adminId now notes qr with
    | Except.error m => (store, PatchResult.badRequest m)
    | Except.ok b1 => (saveBooking store b1, PatchResult.ok b1)

/-- The reject route over the store: find, save (no guard). -/
def rejectRoute (store : List Booking) (bid : Nat) (adminId : Nat) (now : Int)
    (notes : Option String) : List Booking × PatchResult :=
  match findBooking store bid with
  | none => (store, PatchResult.notFound)
  | some b =>
    match rejectBooking b adminId now notes with
    | Except.error m => (store, PatchResult.badRequest m)
    | Except.ok b1 => (saveBooking store b1, PatchResult.ok b1)

/-! ## Claim theorems -/

/-- Claim C1: a conflict is reported by the booking-creation conflict query
iff some existing reservation has a status outside
{REJECTED, CANCELLED, EXPIRED}, shares a resource id with the query, and
satisfies `R.start < end` and `R.end > start`; in particular a reservation
whose end equals the query's start never matches the query. -/
theorem conflict_query_characterisation (resvs : List Booking) (ids : List Nat)
    (s e : Int) :
    (conflictExists resvs ids s e = true ↔
      ∃ b ∈ resvs,
        (b.status ≠ BStatus.REJECTED ∧ b.status ≠ BStatus.CANCELLED ∧
          b.status ≠ BStatus.EXPIRED) ∧
        (∃ f ∈ b.facilities, f ∈ ids) ∧
        b.startTime < e ∧ b.endTime > s) ∧
    (∀ b : Booking, b.endTime = s → matchesConflictQuery b ids s e = false) := by
  constructor
  · unfold conflictExists matchesConflictQuery excludedStatuses
    simp only [List.any_eq_true, Bool.and_eq_true, Bool.not_eq_true',
      decide_eq_true_eq, decide_eq_false_iff_not, List.mem_cons,
      List.not_mem_nil, or_false, not_or, gt_iff_lt]
    exact exists_congr fun b => by tauto
  · intro b hb
    unfold matchesConflictQuery
    have : decide (b.endTime > s) = false := by simp [hb]
    simp [this]

/-- Claim C1 witness: a reservation ending exactly at the query start does
not match the conflict query. -/
theorem conflict_query_characterisation_witness :
    matchesConflictQuery
      { id := 50, userId := 7, facilities := [1], startTime := 1000, endTime := 2000,
        status := BStatus.APPROVED, approval := none, isExternal := false,
        externalOrg := none, checkInCode := [65], qrCodeUrl := none,
        checkInAt := none, checkOutAt := none, audit := [] }
      [1] 2000 3000 = false :=
  (conflict_query_characterisation [] [1] 2000 3000).2 _ rfl

/-- An active facility that is in maintenance mode. -/
def labInMaintenance : Facility :=
  { id := 3, type := FacilityType.LAB, capacity := 5, isRestricted := false,
    active := true, maintenanceMode := true }

/-- Claim C2 counterexample: requesting the active facility `3`, which has
`maintenanceMode = true`, is not refused — the availability lookup filters
on `active: true` only, so the decision is AUTO_APPROVE rather than
REJECT_INACTIVE and a reservation is created. -/
theorem maintenance_mode_not_rejected :
    labInMaintenance.maintenanceMode = true ∧
    bookingDecision [labInMaintenance] [] [3] 0 10 false = Decision.AUTO_APPROVE := by
  constructor
  · rfl
  · decide

/-- Claim C2 (amended): if the facility catalog has pairwise-distinct ids
and some requested facility record has `active = false`, the request is
refused with the not-found-or-inactive error before any conflict or
capacity logic runs (the conclusion holds for every reservation store);
`maintenanceMode` is not consulted by this check. -/
theorem inactive_facility_refused (catalog : List Facility) (resvs : List Booking)
    (ids : List Nat) (s e : Int) (isExternal : Bool) (f : Facility)
    (hcat : (catalog.map Facility.id).Nodup)
    (hf : f ∈ catalog) (hfid : f.id ∈ ids) (hact : f.active = false) :
    bookingDecision catalog resvs ids s e isExternal = Decision.REJECT_INACTIVE := by
  have hlen : (foundFacilities catalog ids).length ≠ ids.length := by
    set l := foundFacilities catalog ids with hl
    have hsub : (l.map Facility.id).Sublist (catalog.map Facility.id) :=
      (List.filter_sublist catalog).map Facility.id
    have hnd : (l.map Facility.id).Nodup := hcat.sublist hsub
    have hmem : ∀ x ∈ l.map Facility.id, x ∈ ids ∧ x ≠ f.id := by
      intro x hx
      obtain ⟨g, hg, rfl⟩ := List.mem_map.1 hx
      have hg2 := List.mem_filter.1 hg
      have hgid : g.id ∈ ids := by
        have := hg2.2
        simp only [Bool.and_eq_true, decide_eq_true_eq] at this
        exact this.1
      have hgact : g.active = true := by
        have := hg2.2
        simp only [Bool.and_eq_true, decide_eq_true_eq] at this
        exact this.2
      refine ⟨hgid, ?_⟩
      intro hEq
      have hgf : g = f := List.inj_on_of_nodup_map hcat hg2.1 hf hEq
      rw [hgf] at hgact
      rw [hact] at hgact
      exact Bool.false_ne_true hgact
    have hndc : (f.id :: l.map Facility.id).Nodup := by
      refine List.nodup_cons.2 ⟨?_, hnd⟩
      intro hmemf
      exact (hmem _ hmemf).2 rfl
    have hsubc : (f.id :: l.map Facility.id).toFinset ⊆ ids.toFinset := by
      intro x hx
      rw [List.mem_toFinset] at hx
      rw [List.mem_toFinset]
      rcases List.mem_cons.1 hx with h | h
      · rw [h]; exact hfid
      · exact (hmem _ h).1
    have hcard : (f.id :: l.map Facility.id).length ≤ ids.length := by
      have h1 := List.toFinset_card_of_nodup hndc
      have h2 := Finset.card_le_card hsubc
      have h3 : ids.toFinset.card ≤ ids.length := ids.toFinset_card_le
      omega
    have : l.length + 1 ≤ ids.length := by
      have := hcard
      simp only [List.length_cons, List.length_map] at this
      omega
    omega
  simp [bookingDecision, hlen]

/-- Claim C2 witness: a request for an inactive facility is refused. -/
theorem inactive_facility_refused_witness :
    bookingDecision
      [{ id := 5, type := FacilityType.BUS, capacity := 20, isRestricted := false,
         active := false, maintenanceMode := false }]
      [] [5] 0 10 false = Decision.REJECT_INACTIVE :=
  inactive_facility_refused _ _ _ _ _ _
    { id := 5, type := FacilityType.BUS, capacity := 20, isRestricted := false,
      active := false, maintenanceMode := false }
    (by decide) (by decide) (by decide) (by decide)

/-- Claim C3: when the request is external, or some requested facility is
restricted (and active, hence part of the looked-up set), the handler never
auto-approves: whenever a reservation is created it has status
PENDING_ADMIN and carries no approval record, regardless of capacity. -/
theorem restricted_or_external_never_auto (catalog : List Facility)
    (resvs : List Booking) (ids : List Nat) (s e : Int) (isExternal : Bool)
    (extOrg : Option String) (userId newId : Nat) (code : List Nat) (qr : String)
    (settings : SystemSettings) (now : Int) (bk : Booking)
    (h : isExternal = true ∨
      ∃ f ∈ catalog, f.id ∈ ids ∧ f.isRestricted = true ∧ f.active = true)
    (hc : createBooking catalog resvs
      { facilityIds := some ids, startTime := some s, endTime := some e,
        isExternal := isExternal, externalOrg := extOrg }
      userId newId code qr settings now = CreateResult.created bk) :
    bk.status = BStatus.PENDING_ADMIN ∧ bk.approval = none := by
  have hreq : ((foundFacilities catalog ids).any (fun f => f.isRestricted) ||
      isExternal) = true := by
    rcases h with h | ⟨f, hf, hfid, hres, hact⟩
    · rw [h]; exact Bool.or_true _
    · have hmem : f ∈ foundFacilities catalog ids := by
        rw [foundFacilities, List.mem_filter]
        refine ⟨hf, ?_⟩
        simp [hfid, hact]
      have : (foundFacilities catalog ids).any (fun f => f.isRestricted) = true :=
        List.any_eq_true.2 ⟨f, hmem, hres⟩
      rw [this]
      exact Bool.true_or _
  have hdec : bookingDecision catalog resvs ids s e isExternal =
      Decision.REJECT_INACTIVE ∨
      bookingDecision catalog resvs ids s e isExternal =
      Decision.REJECT_CONFLICT ∨
      bookingDecision catalog resvs ids s e isExternal =
      Decision.REQUIRES_ADMIN_APPROVAL := by
    rw [bookingDecision]
    split
    · exact Or.inl rfl
    · split
      · exact Or.inr (Or.inl rfl)
      · refine Or.inr (Or.inr ?_)
        have : ((foundFacilities catalog ids).any (fun f => f.isRestricted) ||
            isExternal ||
            capacitySaturated catalog resvs
              (((foundFacilities catalog ids).map (fun f => f.type)).dedup) s e) =
            true := by
          rw [Bool.or_eq_true]
          exact Or.inl hreq
        simp only [this, if_true]
  rw [createBooking] at hc
  simp only at hc
  rcases hdec with hd | hd | hd <;> rw [hd] at hc
  · exact absurd hc (by simp)
  · exact absurd hc (by simp)
  · simp only [CreateResult.created.injEq] at hc
    rw [← hc]
    constructor <;> rfl

/-- Claim C3 witness: an external request for a free, unrestricted room is
created as PENDING_ADMIN with no approval record. -/
theorem restricted_or_external_never_auto_witness :
    ({ id := 100, userId := 7, facilities := [1], startTime := 0, endTime := 10,
       status := BStatus.PENDING_ADMIN, approval := none, isExternal := true,
       externalOrg := some "Org", checkInCode := [65], qrCodeUrl := some "qr",
       checkInAt := none, checkOutAt := none,
       audit := [{ action := "BOOKING_CREATED", doneBy := 7, doneAt := 99 }] } :
        Booking).status = BStatus.PENDING_ADMIN ∧
    ({ id := 100, userId := 7, facilities := [1], startTime := 0, endTime := 10,
       status := BStatus.PENDING_ADMIN, approval := none, isExternal := true,
       externalOrg := some "Org", checkInCode := [65], qrCodeUrl := some "qr",
       checkInAt := none, checkOutAt := none,
       audit := [{ action := "BOOKING_CREATED", doneBy := 7, doneAt := 99 }] } :
        Booking).approval = none :=
  restricted_or_external_never_auto
    [{ id := 1, type := FacilityType.CONFERENCE_ROOM, capacity := 10,
       isRestricted := false, active := true, maintenanceMode := false }]
    [] [1] 0 10 true (some "Org") 7 100 [65] "qr"
    { autoApprovalEnabled := true, reminderBeforeStartMinutes := 30,
      reminderBeforeEndMinutes := 10, overdueGraceMinutes := 5,
      externalBookingsEnabled := true }
    99 _ (Or.inl rfl) (by decide)

/-- The capacity rule as the spec words it (section 4.2 step 4), for
comparison with the code's `capacitySaturated`: a type trips the check as
soon as the count of already-reserved pool members reaches the pool size,
with no allowance for an empty pool. -/
def capacitySaturatedSpec (catalog : List Facility) (resvs : List Booking)
    (ftypes : List FacilityType) (s e : Int) : Bool :=
  ftypes.any (fun t =>
    let pool := typePool catalog t
    decide ((bookedOfPool resvs pool s e).length ≥ pool.length))

/-- An active hall that is in maintenance mode (its type pool is empty). -/
def hallInMaintenance : Facility :=
  { id := 8, type := FacilityType.HALL, capacity := 50, isRestricted := false,
    active := true, maintenanceMode := true }

/-- Claim C4 counterexample: requesting the active, maintenance-mode hall
`8` gives an empty pool for type HALL, so the claimed predicate
(reserved-count `>=` pool size, here `0 >= 0`) holds and the claim demands
REQUIRES_ADMIN_APPROVAL, but the code skips empty pools (`continue`) and
auto-approves. -/
theorem empty_pool_escapes_saturation :
    capacitySaturatedSpec [hallInMaintenance] []
      (((foundFacilities [hallInMaintenance] [8]).map (fun f => f.type)).dedup)
      0 10 = true ∧
    bookingDecision [hallInMaintenance] [] [8] 0 10 false =
      Decision.AUTO_APPROVE := by
  constructor
  · decide
  · decide

/-- A non-empty list is exactly one whose `isEmpty` test is false. -/
theorem not_isEmpty_iff (l : List Nat) : (!l.isEmpty) = true ↔ l ≠ [] := by
  cases l <;> simp

/-- The code's saturation loop over the deduplicated types holds iff some
requested type has a non-empty pool whose booked members reach its size. -/
theorem capacitySaturated_iff (catalog : List Facility) (resvs : List Booking)
    (types : List FacilityType) (s e : Int) :
    capacitySaturated catalog resvs types.dedup s e = true ↔
    ∃ t ∈ types, typePool catalog t ≠ [] ∧
      (bookedOfPool resvs (typePool catalog t) s e).length ≥
        (typePool catalog t).length := by
  rw [capacitySaturated, List.any_eq_true]
  constructor
  · rintro ⟨t, ht, hcond⟩
    simp only [Bool.and_eq_true, decide_eq_true_eq] at hcond
    exact ⟨t, List.mem_dedup.1 ht, (not_isEmpty_iff _).1 hcond.1, hcond.2⟩
  · rintro ⟨t, ht, hne, hc⟩
    refine ⟨t, List.mem_dedup.2 ht, ?_⟩
    simp only [Bool.and_eq_true, decide_eq_true_eq]
    exact ⟨(not_isEmpty_iff _).2 hne, hc⟩

/-- Claim C4 (amended): with no mandatory trigger (no restricted facility
among those looked up, not external), the decision is
REQUIRES_ADMIN_APPROVAL iff the request passes the availability and
conflict gates and some requested type has a NON-EMPTY pool of active,
non-maintenance facilities all of whose members are already reserved
(reserved-count `>=` pool size); it is AUTO_APPROVE iff it passes both
gates and no requested type does.  An empty pool — possible when a
requested facility is active but in maintenance mode — is skipped rather
than counted as saturated. -/
theorem capacity_saturation_rule (catalog : List Facility) (resvs : List Booking)
    (ids : List Nat) (s e : Int)
    (hR : (foundFacilities catalog ids).any (fun f => f.isRestricted) = false) :
    (bookingDecision catalog resvs ids s e false =
        Decision.REQUIRES_ADMIN_APPROVAL ↔
      (foundFacilities catalog ids).length = ids.length ∧
      conflictExists resvs ids s e = false ∧
      ∃ t ∈ (foundFacilities catalog ids).map (fun f => f.type),
        typePool catalog t ≠ [] ∧
        (bookedOfPool resvs (typePool catalog t) s e).length ≥
          (typePool catalog t).length) ∧
    (bookingDecision catalog resvs ids s e false = Decision.AUTO_APPROVE ↔
      (foundFacilities catalog ids).length = ids.length ∧
      conflictExists resvs ids s e = false ∧
      ¬ ∃ t ∈ (foundFacilities catalog ids).map (fun f => f.type),
        typePool catalog t ≠ [] ∧
        (bookedOfPool resvs (typePool catalog t) s e).length ≥
          (typePool catalog t).length) := by
  rw [bookingDecision]
  simp only [hR, Bool.false_or]
  split
  · rename_i hlen
    constructor
    · constructor
      · intro h; exact absurd h (by simp)
      · rintro ⟨hl, -, -⟩; exact absurd hl hlen
    · constructor
      · intro h; exact absurd h (by simp)
      · rintro ⟨hl, -, -⟩; exact absurd hl hlen
  · rename_i hlen
    rw [not_not] at hlen
    split
    · rename_i hconf
      constructor
      · constructor
        · intro h; exact absurd h (by simp)
        · rintro ⟨-, hcf, -⟩; rw [hconf] at hcf; exact Bool.noConfusion hcf
      · constructor
        · intro h; exact absurd h (by simp)
        · rintro ⟨-, hcf, -⟩; rw [hconf] at hcf; exact Bool.noConfusion hcf
    · rename_i hconf
      rw [Bool.not_eq_true] at hconf
      by_cases hsat : capacitySaturated catalog resvs
          (((foundFacilities catalog ids).map (fun f => f.type)).dedup) s e = true
      · rw [if_pos hsat]
        have hs := (capacitySaturated_iff catalog resvs _ s e).1 hsat
        constructor
        · simp only [true_iff]
          exact ⟨hlen, hconf, hs⟩
        · constructor
          · intro h; exact absurd h (by simp)
          · rintro ⟨-, -, hno⟩; exact absurd hs hno
      · rw [if_neg hsat]
        have hs : ¬ ∃ t ∈ (foundFacilities catalog ids).map (fun f => f.type),
            typePool catalog t ≠ [] ∧
            (bookedOfPool resvs (typePool catalog t) s e).length ≥
              (typePool catalog t).length := by
          intro hex
          exact hsat ((capacitySaturated_iff catalog resvs _ s e).2 hex)
        constructor
        · constructor
          · intro h; exact absurd h (by simp)
          · rintro ⟨-, -, hex⟩; exact absurd hex hs
        · simp only [true_iff]
          exact ⟨hlen, hconf, hs⟩

/-- Two labs: one bookable, one active but in maintenance mode. -/
def labCatalogW : List Facility :=
  [{ id := 10, type := FacilityType.LAB, capacity := 5, isRestricted := false,
     active := true, maintenanceMode := false },
   { id := 11, type := FacilityType.LAB, capacity := 5, isRestricted := false,
     active := true, maintenanceMode := true }]

/-- A reservation holding lab 10 for [1000, 2000). -/
def labStoreW : List Booking :=
  [{ id := 60, userId := 7, facilities := [10], startTime := 1000,
     endTime := 2000, status := BStatus.APPROVED, approval := none,
     isExternal := false, externalOrg := none, checkInCode := [65],
     qrCodeUrl := none, checkInAt := none, checkOutAt := none, audit := [] }]

/-- Claim C4 witness: lab 10, already reserved for an overlapping interval,
saturates the LAB pool (which excludes the maintenance-mode lab 11), so a
request for lab 11 over [1500, 2500) requires admin approval. -/
theorem capacity_saturation_rule_witness :
    bookingDecision labCatalogW labStoreW [11] 1500 2500 false =
      Decision.REQUIRES_ADMIN_APPROVAL :=
  ((capacity_saturation_rule labCatalogW labStoreW [11] 1500 2500 (by decide)).1).2
    ⟨by decide, by decide, by decide⟩

/-- A settings document with every policy toggle at its schema default. -/
def defaultSettings : SystemSettings :=
  { autoApprovalEnabled := true, reminderBeforeStartMinutes := 30,
    reminderBeforeEndMinutes := 10, overdueGraceMinutes := 5,
    externalBookingsEnabled := true }

/-- Claim C5: the POST route checks only field presence
(`!facilityIds || !startTime || !endTime`); the repository's
`validateBooking` middleware — which enforces a non-empty facility array
and `endTime > startTime` — is never attached to the route.  A request
with an empty facility set and `startTime > endTime` therefore passes
every gate, reaches the engine, and creates an auto-approved reservation
instead of failing validation. -/
theorem missing_validation_creates_booking :
    postBooking [] []
      { facilityIds := some [], startTime := some 10, endTime := some 5,
        isExternal := false, externalOrg := none }
      7 100 [97] "qr" defaultSettings 999 =
    ([{ id := 100, userId := 7, facilities := [], startTime := 10, endTime := 5,
        status := BStatus.APPROVED,
        approval := some { atype := ApprovalType.AUTO, approvedBy := none,
                           approvedAt := some 999, notes := none },
        isExternal := false, externalOrg := none, checkInCode := [97],
        qrCodeUrl := some "qr", checkInAt := none, checkOutAt := none,
        audit := [{ action := "BOOKING_CREATED", doneBy := 7, doneAt := 999 }] }],
     CreateResult.created
      { id := 100, userId := 7, facilities := [], startTime := 10, endTime := 5,
        status := BStatus.APPROVED,
        approval := some { atype := ApprovalType.AUTO, approvedBy := none,
                           approvedAt := some 999, notes := none },
        isExternal := false, externalOrg := none, checkInCode := [97],
        qrCodeUrl := some "qr", checkInAt := none, checkOutAt := none,
        audit := [{ action := "BOOKING_CREATED", doneBy := 7, doneAt := 999 }] }) := by
  decide

/-- Claim C6: the route maps the decision to persisted state exactly as
specified — AUTO_APPROVE appends a reservation with status APPROVED and an
`approval.type = AUTO` record, REQUIRES_ADMIN_APPROVAL appends one with
status PENDING_ADMIN and no approval record, and the two REJECT decisions
return an error response with the reservation store unchanged. -/
theorem decision_to_persisted_state (catalog : List Facility)
    (store : List Booking) (ids : List Nat) (s e : Int) (isExternal : Bool)
    (extOrg : Option String) (userId newId : Nat) (code : List Nat) (qr : String)
    (settings : SystemSettings) (now : Int) :
    (bookingDecision catalog store ids s e isExternal = Decision.AUTO_APPROVE →
      ∃ bk, postBooking catalog store
          ⟨some ids, some s, some e, isExternal, extOrg⟩
          userId newId code qr settings now = (store ++ [bk], CreateResult.created bk) ∧
        bk.status = BStatus.APPROVED ∧
        bk.approval = some { atype := ApprovalType.AUTO, approvedBy := none,
                             approvedAt := some now, notes := none }) ∧
    (bookingDecision catalog store ids s e isExternal =
        Decision.REQUIRES_ADMIN_APPROVAL →
      ∃ bk, postBooking catalog store
          ⟨some ids, some s, some e, isExternal, extOrg⟩
          userId newId code qr settings now = (store ++ [bk], CreateResult.created bk) ∧
        bk.status = BStatus.PENDING_ADMIN ∧ bk.approval = none) ∧
    (bookingDecision catalog store ids s e isExternal = Decision.REJECT_CONFLICT →
      postBooking catalog store ⟨some ids, some s, some e, isExternal, extOrg⟩
        userId newId code qr settings now = (store, CreateResult.conflict)) ∧
    (bookingDecision catalog store ids s e isExternal = Decision.REJECT_INACTIVE →
      postBooking catalog store ⟨some ids, some s, some e, isExternal, extOrg⟩
        userId newId code qr settings now = (store, CreateResult.notFoundOrInactive)) := by
  refine ⟨?_, ?_, ?_, ?_⟩ <;> intro h
  · rw [postBooking, createBooking]
    simp only []
    rw [h]
    exact ⟨_, rfl, rfl, rfl⟩
  · rw [postBooking, createBooking]
    simp only []
    rw [h]
    exact ⟨_, rfl, rfl, rfl⟩
  · rw [postBooking, createBooking]
    simp only []
    rw [h]
  · rw [postBooking, createBooking]
    simp only []
    rw [h]

/-- Claim C6 witness: an uncontended request for a free classroom
auto-approves and is appended to the store as APPROVED with an AUTO
approval record. -/
theorem decision_to_persisted_state_witness :
    ∃ bk, postBooking
        [{ id := 1, type := FacilityType.CLASSROOM, capacity := 30,
           isRestricted := false, active := true, maintenanceMode := false }]
        [] ⟨some [1], some 0, some 10, false, none⟩
        7 100 [65] "qr" defaultSettings 999 = ([] ++ [bk], CreateResult.created bk) ∧
      bk.status = BStatus.APPROVED ∧
      bk.approval = some { atype := ApprovalType.AUTO, approvedBy := none,
                           approvedAt := some 999, notes := none } :=
  (decision_to_persisted_state
    [{ id := 1, type := FacilityType.CLASSROOM, capacity := 30,
       isRestricted := false, active := true, maintenanceMode := false }]
    [] [1] 0 10 false none 7 100 [65] "qr" defaultSettings 999).1 (by decide)

/-- An already-approved booking, used to probe the reject route. -/
def approvedBooking : Booking :=
  { id := 70, userId := 7, facilities := [1], startTime := 1000, endTime := 2000,
    status := BStatus.APPROVED, approval := none, isExternal := false,
    externalOrg := none, checkInCode := [65], qrCodeUrl := some "qr",
    checkInAt := none, checkOutAt := none, audit := [] }

/-- Claim C7 counterexample: rejecting a booking whose status is APPROVED —
not PENDING or PENDING_ADMIN — succeeds and changes both the status and the
approval metadata, instead of returning an error and leaving the booking
unchanged. -/
theorem reject_without_guard :
    approvedBooking.status = BStatus.APPROVED ∧
    rejectBooking approvedBooking 9 500 none =
      Except.ok { approvedBooking with
        status := BStatus.REJECTED
        approval := some { atype := ApprovalType.MANUAL, approvedBy := some 9,
                           approvedAt := some 500, notes := none }
        audit := [{ action := "BOOKING_REJECTED", doneBy := 9, doneAt := 500 }] } :=
  ⟨rfl, rfl⟩

/-- Claim C7 (amended): approve succeeds only from PENDING or
PENDING_ADMIN — on any other status it returns the 400 error and the store
is unchanged — but reject carries no status guard: on any found booking it
succeeds, setting status REJECTED and overwriting the approval record. -/
theorem approve_guarded_reject_not (store : List Booking) (bid adminId : Nat)
    (now : Int) (notes : Option String) (qr : String) (b : Booking)
    (hfind : findBooking store bid = some b) :
    ((b.status ≠ BStatus.PENDING ∧ b.status ≠ BStatus.PENDING_ADMIN) →
      approveRoute store bid adminId now notes qr =
        (store, PatchResult.badRequest "Only pending bookings can be approved")) ∧
    (∃ b1, rejectRoute store bid adminId now notes =
        (saveBooking store b1, PatchResult.ok b1) ∧
      b1.status = BStatus.REJECTED ∧
      b1.approval = some { atype := ApprovalType.MANUAL, approvedBy := some adminId,
                           approvedAt := some now, notes := notes }) := by
  constructor
  · intro hst
    have hguard : (decide (b.status ≠ BStatus.PENDING_ADMIN) &&
        decide (b.status ≠ BStatus.PENDING)) = true := by
      simp [hst.1, hst.2]
    have happ : approveBooking b adminId now notes qr =
        Except.error "Only pending bookings can be approved" := by
      rw [approveBooking, if_pos hguard]
    simp only [approveRoute, hfind, happ]
  · refine ⟨{ b with
      status := BStatus.REJECTED
      approval := some { atype := ApprovalType.MANUAL, approvedBy := some adminId,
                         approvedAt := some now, notes := notes }
      audit := b.audit ++
        [{ action := "BOOKING_REJECTED", doneBy := adminId, doneAt := now }] },
      ?_, rfl, rfl⟩
    simp [rejectRoute, hfind, rejectBooking]

/-- Claim C7 witness: on a store holding only an APPROVED booking, approve
returns the 400 error with the store unchanged, while reject succeeds. -/
theorem approve_guarded_reject_not_witness :
    approveRoute [approvedBooking] 70 9 500 none "qr" =
      ([approvedBooking], PatchResult.badRequest "Only pending bookings can be approved") :=
  (approve_guarded_reject_not [approvedBooking] 70 9 500 none "qr" approvedBooking
    (by decide)).1 ⟨by decide, by decide⟩

/-- A checked-out (terminal) booking, used to probe terminal transitions. -/
def checkedOutBooking : Booking :=
  { id := 80, userId := 7, facilities := [1], startTime := 1000, endTime := 2000,
    status := BStatus.CHECKED_OUT, approval := none, isExternal := false,
    externalOrg := none, checkInCode := [65], qrCodeUrl := some "qr",
    checkInAt := some 1000, checkOutAt := some 1900, audit := [] }

/-- Claim C8 counterexample: reject moves a booking out of the terminal
status CHECKED_OUT — it succeeds and sets the status to REJECTED. -/
theorem reject_resurrects_terminal :
    checkedOutBooking.status = BStatus.CHECKED_OUT ∧
    rejectBooking checkedOutBooking 9 500 none =
      Except.ok { checkedOutBooking with
        status := BStatus.REJECTED
        approval := some { atype := ApprovalType.MANUAL, approvedBy := some 9,
                           approvedAt := some 500, notes := none }
        audit := [{ action := "BOOKING_REJECTED", doneBy := 9, doneAt := 500 }] } :=
  ⟨rfl, rfl⟩

/-- Claim C8 (amended): on a booking in a terminal status (REJECTED,
CANCELLED, EXPIRED, CHECKED_OUT), approve and the scan transition always
error, and cancel errors on CHECKED_OUT; but cancel succeeds on REJECTED,
CANCELLED and EXPIRED bookings (moving them to CANCELLED), and reject
succeeds on every terminal booking (moving it to REJECTED), so terminal
statuses are not preserved by every operation. -/
theorem terminal_status_operations (b : Booking) (adminId actorId : Nat)
    (now : Int) (notes : Option String) (qr : String)
    (hT : b.status = BStatus.REJECTED ∨ b.status = BStatus.CANCELLED ∨
          b.status = BStatus.EXPIRED ∨ b.status = BStatus.CHECKED_OUT) :
    (∃ m, approveBooking b adminId now notes qr = Except.error m) ∧
    (∃ m, scanProcess b actorId now = Except.error m) ∧
    (b.status = BStatus.CHECKED_OUT →
      ∃ m, cancelBooking b actorId true now notes = Except.error m) ∧
    ((b.status = BStatus.REJECTED ∨ b.status = BStatus.CANCELLED ∨
        b.status = BStatus.EXPIRED) →
      ∃ b1, cancelBooking b actorId true now notes = Except.ok b1 ∧
        b1.status = BStatus.CANCELLED) ∧
    (∃ b1, rejectBooking b adminId now notes = Except.ok b1 ∧
      b1.status = BStatus.REJECTED) := by
  refine ⟨?_, ?_, ?_, ?_, ?_⟩
  · refine ⟨"Only pending bookings can be approved", ?_⟩
    rw [approveBooking, if_pos]
    rcases hT with hs | hs | hs | hs <;> simp [hs]
  · refine ⟨"Booking is not approved for check-in", ?_⟩
    rw [scanProcess, if_pos]
    rcases hT with hs | hs | hs | hs <;> simp [hs]
  · intro hs
    refine ⟨"Cannot cancel booking that is already checked in or out", ?_⟩
    rw [cancelBooking]
    simp [hs]
  · intro hs
    rw [cancelBooking]
    have h1 : (!true && decide (b.userId ≠ actorId)) = false := by simp
    have h2 : (decide (b.status = BStatus.CHECKED_IN) ||
        decide (b.status = BStatus.CHECKED_OUT)) = false := by
      rcases hs with hs | hs | hs <;> simp [hs]
    rw [if_neg (by simp [h1]), if_neg (by simp [h2])]
    cases notes with
    | none => exact ⟨_, rfl, rfl⟩
    | some n =>
      cases hap : b.approval with
      | none => simp only [hap]; exact ⟨_, rfl, rfl⟩
      | some ap => simp only [hap]; exact ⟨_, rfl, rfl⟩
  · rw [rejectBooking]
    exact ⟨_, rfl, rfl⟩

/-- Claim C8 witness: the conclusions at a concrete checked-out booking. -/
theorem terminal_status_operations_witness :
    ∃ m, approveBooking checkedOutBooking 9 500 none "qr" = Except.error m :=
  (terminal_status_operations checkedOutBooking 9 9 500 none "qr"
    (by decide)).1

/-- `toUpperCase` never produces a lowercase ASCII letter. -/
theorem upperUnit_not_lower (n : Nat) : ¬(97 ≤ upperUnit n ∧ upperUnit n ≤ 122) := by
  rw [upperUnit]
  split <;> omega

/-- Claim C9: a booking whose stored check-in code contains a lowercase
ASCII letter (as `nanoid(8)` defaults may) can never be located through the
manual-code path of the scan route — the handler uppercases the submitted
code before an exact match, so even submitting the booking's own code
verbatim misses — while the QR path, which carries the code verbatim,
still finds the booking (assuming booking ids are unique in the store). -/
theorem lowercase_code_unreachable_manually (store : List Booking) (b : Booking)
    (mcode : List Nat)
    (hb : b ∈ store)
    (hlow : ∃ n ∈ b.checkInCode, 97 ≤ n ∧ n ≤ 122)
    (huniq : ∀ x ∈ store, x.id = b.id → x = b) :
    scanFind store (ScanInput.manual mcode) ≠ some b ∧
    scanFind store (ScanInput.qr b.checkInCode b.id) = some b := by
  constructor
  · intro hfind
    rw [scanFind] at hfind
    have hp := List.find?_some hfind
    simp only [decide_eq_true_eq] at hp
    obtain ⟨n, hn, hlo⟩ := hlow
    rw [hp, toUpperCase] at hn
    obtain ⟨m, hm, hEq⟩ := List.mem_map.1 hn
    rw [← hEq] at hlo
    exact upperUnit_not_lower m hlo
  · rw [scanFind]
    cases hfq : (store.find? fun x =>
        decide (x.checkInCode = b.checkInCode) && decide (x.id = b.id)) with
    | none =>
      rw [List.find?_eq_none] at hfq
      have := hfq b hb
      simp at this
    | some x =>
      have hpx := List.find?_some hfq
      have hmx := List.mem_of_find?_eq_some hfq
      simp only [Bool.and_eq_true, decide_eq_true_eq] at hpx
      rw [huniq x hmx hpx.2]

/-- A booking whose check-in code is the string "aB" (code units 97 66). -/
def lowercaseCodeBooking : Booking :=
  { id := 90, userId := 7, facilities := [1], startTime := 1000, endTime := 2000,
    status := BStatus.APPROVED, approval := none, isExternal := false,
    externalOrg := none, checkInCode := [97, 66], qrCodeUrl := some "qr",
    checkInAt := none, checkOutAt := none, audit := [] }

/-- Claim C9 witness: submitting the booking's own code "aB" manually does
not find it, while the QR payload does. -/
theorem lowercase_code_unreachable_manually_witness :
    scanFind [lowercaseCodeBooking] (ScanInput.manual [97, 66]) ≠
      some lowercaseCodeBooking ∧
    scanFind [lowercaseCodeBooking]
      (ScanInput.qr lowercaseCodeBooking.checkInCode lowercaseCodeBooking.id) =
      some lowercaseCodeBooking :=
  lowercase_code_unreachable_manually [lowercaseCodeBooking] lowercaseCodeBooking
    [97, 66] (by decide) (by decide) (by decide)

/-- A settings document with auto-approval switched off. -/
def autoApprovalOff : SystemSettings :=
  { autoApprovalEnabled := false, reminderBeforeStartMinutes := 30,
    reminderBeforeEndMinutes := 10, overdueGraceMinutes := 5,
    externalBookingsEnabled := true }

/-- Claim C10: the booking-creation outcome is independent of the
SystemSettings document — any two settings values give identical store and
response — and in particular with `autoApprovalEnabled = false` an
uncontended request is still created APPROVED with `approval.type = AUTO`. -/
theorem creation_independent_of_settings :
    (∀ (catalog : List Facility) (store : List Booking) (req : CreateRequest)
        (userId newId : Nat) (code : List Nat) (qr : String)
        (s1 s2 : SystemSettings) (now : Int),
      postBooking catalog store req userId newId code qr s1 now =
        postBooking catalog store req userId newId code qr s2 now) ∧
    (postBooking
        [{ id := 2, type := FacilityType.PROJECTOR, capacity := 1,
           isRestricted := false, active := true, maintenanceMode := false }]
        [] ⟨some [2], some 0, some 10, false, none⟩
        7 101 [66] "qr" autoApprovalOff 999).2 =
      CreateResult.created
        { id := 101, userId := 7, facilities := [2], startTime := 0, endTime := 10,
          status := BStatus.APPROVED,
          approval := some { atype := ApprovalType.AUTO, approvedBy := none,
                             approvedAt := some 999, notes := none },
          isExternal := false, externalOrg := none, checkInCode := [66],
          qrCodeUrl := some "qr", checkInAt := none, checkOutAt := none,
          audit := [{ action := "BOOKING_CREATED", doneBy := 7, doneAt := 999 }] } := by
  constructor
  · intro catalog store req userId newId code qr s1 s2 now
    rfl
  · decide

end FacilityManager
